import Mathlib

/-!
Shallow embedding of the MQTT remote task-invocation layer of
`ac_training_lab/ot-2/orchestration/mqtt_wrapper.py` (whose signature-binding
logic is shared with `device_server.py`).  Python dicts are modelled as
association lists with unique keys, JSON-serialisable values as `Val`,
a raised Python exception as the `Except.error` carrying `str(e)`, and the
fresh UUIDs and clock readings the code draws are passed in as explicit
parameters.
-/

namespace AcLab

/-- JSON-serialisable values exchanged over the wire; `vNone` models both
Python `None` and JSON `null`. -/
inductive Val : Type where
  | vNone : Val
  | vBool : Bool → Val
  | vInt : Int → Val
  | vStr : String → Val
deriving DecidableEq, Repr

/-- Association-list model of a Python dict with string keys (keys unique). -/
abbrev Dict (α : Type) := List (String × α)

/-- Python `d.get(k)` / `k in d`. -/
def dictGet {α : Type} : Dict α → String → Option α
  | [], _ => none
  | (k0, v) :: rest, k => if k0 = k then some v else dictGet rest k

def containsKey {α : Type} (d : Dict α) (k : String) : Bool :=
  (dictGet d k).isSome

/-- Python dict assignment `d[k] = v`: replace the value in place when the key
exists, append a new entry otherwise. -/
def dictInsert {α : Type} : Dict α → String → α → Dict α
  | [], k, v => [(k, v)]
  | (k0, v0) :: rest, k, v =>
    if k0 = k then (k0, v) :: rest else (k0, v0) :: dictInsert rest k v

/-- Python `d.pop(k, None)`: remove the entry for `k`. -/
def dictErase {α : Type} (d : Dict α) (k : String) : Dict α :=
  d.filter (fun kv => kv.1 != k)

/-- Python `d.update(u)`: assign every entry of `u` into `d`, in order. -/
def dictUpdate {α : Type} (d u : Dict α) : Dict α :=
  u.foldl (fun acc kv => dictInsert acc kv.1 kv.2) d

def dictKeys {α : Type} (d : Dict α) : List String := d.map (·.1)

/-- The Python type annotations `inspect.signature` records on parameters.
The source stores them but never consults them when binding. -/
inductive Ann : Type where
  | aNone : Ann
  | aBool : Ann
  | aInt : Ann
  | aStr : Ann
  | aAny : Ann
deriving DecidableEq, Repr

/-- Whether a value matches a declared annotation.  This is the notion of
type mismatch of the specification (binding step of the Device Executor);
the source never evaluates it. -/
def annMatches : Ann → Val → Bool
  | .aAny, _ => true
  | .aNone, .vNone => true
  | .aBool, .vBool _ => true
  | .aInt, .vInt _ => true
  | .aStr, .vStr _ => true
  | _, _ => false

/-- One parameter of an `inspect.Signature`. -/
structure Param where
  name : String
  ann : Option Ann
  default : Option Val
deriving DecidableEq, Repr

/-- One entry of the module-level `_mqtt_task_registry` (mqtt_wrapper.py
lines 45-50): the function, its signature, its name and its docstring.
Task functions take the bound arguments and either return a value or raise
(modelled as `Except.error` with the exception text). -/
structure TaskInfo where
  func : Dict Val → Except String Val
  sig : List Param
  name : String
  doc : String

abbrev Registry := Dict TaskInfo

/-- Body of the `mqtt_task` decorator (mqtt_wrapper.py lines 38-53): plain
dict assignment `_mqtt_task_registry[task_name] = {...}`. -/
def mqttTaskRegister (reg : Registry) (task_name : String) (ti : TaskInfo) :
    Registry :=
  dictInsert reg task_name ti

/-- Python `Signature.bind` treatment of a single parameter, combined with
`apply_defaults`: take the supplied argument, else the declared default,
else raise for a missing required argument. -/
def bindOne (args : Dict Val) (q : Param) : Except String (String × Val) :=
  match dictGet args q.name with
  | some v => .ok (q.name, v)
  | none =>
    match q.default with
    | some d => .ok (q.name, d)
    | none => .error ("missing a required argument: \x27" ++ q.name ++ "\x27")

/-- Bind each parameter of the signature in order, stopping at the first
missing required argument, as `Signature.bind` does. -/
def bindAll (args : Dict Val) : List Param → Except String (Dict Val)
  | [] => .ok []
  | q :: rest =>
    match bindOne args q with
    | .error e => .error e
    | .ok kv =>
      match bindAll args rest with
      | .error e => .error e
      | .ok kvs => .ok (kv :: kvs)

/-- Model of `task_info[\x27signature\x27].bind(**parameters)` followed by
`bound_args.apply_defaults()` (mqtt_wrapper.py lines 166-167,
device_server.py lines 150-151): bind every declared parameter, then raise
for any supplied argument that matches no declared parameter.  Type
annotations are never checked. -/
def bindApplyDefaults (sig : List Param) (args : Dict Val) :
    Except String (Dict Val) :=
  match bindAll args sig with
  | .error e => .error e
  | .ok bound =>
    match args.find? (fun kv => (sig.find? (fun q => q.name == kv.1)).isNone) with
    | some kv =>
      .error ("got an unexpected keyword argument \x27" ++ kv.1 ++ "\x27")
    | none => .ok bound

/-- A parsed Command Envelope as `_execute_command` reads it with
`payload.get`: every field may be absent. -/
structure CommandPayload where
  request_id : Option String
  task : Option String
  parameters : Option (Dict Val)
  timestamp : Option Nat
deriving DecidableEq, Repr

/-- The Result Envelope the executor publishes (mqtt_wrapper.py lines 173-179
and 186-192): `result` is present on success, `error` on failure. -/
structure ResultEnvelope where
  request_id : String
  task : String
  status : String
  result : Option Val
  error : Option String
  timestamp : Nat
deriving DecidableEq, Repr

def pyQuote (s : String) : String := "\x27" ++ s ++ "\x27"

/-- Python `repr` of a list of strings, as an f-string interpolates it. -/
def pyListRepr (xs : List String) : String :=
  "[" ++ String.intercalate ", " (xs.map pyQuote) ++ "]"

/-- The message of the `ValueError` raised on a registry miss
(mqtt_wrapper.py line 159). -/
def notFoundMsg (task_name : String) (reg : Registry) : String :=
  "Task " ++ pyQuote task_name ++ " not found. Available: "
    ++ pyListRepr (dictKeys reg)

/-- Python truthiness of the optional `task` field (`if not task_name`,
mqtt_wrapper.py line 155): absent or empty is falsy. -/
def taskFalsy : Option String → Bool
  | none => true
  | some s => s == ""

/-- The `try` body of `MQTTDeviceServer._execute_command` (mqtt_wrapper.py
lines 149-182).  `freshId` stands for the `str(uuid.uuid4())` drawn when the
command has no `request_id`; `now` for `time.time()`.  Each `raise`, and an
exception escaping `bind` or the task function, becomes `Except.error`. -/
def executeCommandBody (reg : Registry) (freshId : String) (now : Nat)
    (payload : CommandPayload) : Except String ResultEnvelope :=
  let request_id := payload.request_id.getD freshId
  let parameters := payload.parameters.getD []
  if taskFalsy payload.task then
    .error "No task specified in command"
  else
    let task_name := payload.task.getD ""
    match dictGet reg task_name with
    | none => .error (notFoundMsg task_name reg)
    | some task_info =>
      match bindApplyDefaults task_info.sig parameters with
      | .error e => .error e
      | .ok bound =>
        match task_info.func bound with
        | .error e => .error e
        | .ok result =>
          .ok { request_id := request_id, task := task_name,
                status := "success", result := some result, error := none,
                timestamp := now }

/-- Whether the control flow of `_execute_command` reaches the call
`func(**bound_args.arguments)` (mqtt_wrapper.py line 170): it does exactly
when the task is named, registered, and binding succeeded. -/
def invokesFunc (reg : Registry) (payload : CommandPayload) : Bool :=
  if taskFalsy payload.task then false
  else
    match dictGet reg (payload.task.getD "") with
    | none => false
    | some task_info =>
      (bindApplyDefaults task_info.sig (payload.parameters.getD [])).toOption.isSome

/-- Model of `MQTTDeviceServer._execute_command` (mqtt_wrapper.py lines 147-195): the
`try` body above, with the `except` clause turning any raised exception into
an error Result Envelope whose `request_id` falls back to `"unknown"`. -/
def executeCommand (reg : Registry) (freshId : String) (now : Nat)
    (payload : CommandPayload) : ResultEnvelope :=
  match executeCommandBody reg freshId now payload with
  | .ok success_env => success_env
  | .error e =>
    { request_id := payload.request_id.getD "unknown",
      task := payload.task.getD "unknown",
      status := "error", result := none, error := some e, timestamp := now }

/-- The flags of `MQTTDeviceServer` that the message handler could touch;
`connected` standing for the live subscription. -/
structure ServerState where
  connected : Bool
  running : Bool
deriving DecidableEq, Repr

/-- Model of `MQTTDeviceServer._on_message` (mqtt_wrapper.py lines 133-145): decode
the payload (`none` models a payload that is not valid JSON) and run
`_execute_command`; `json.JSONDecodeError` and any other exception are
caught and only logged.  Returns the unchanged server state together with
the Result Envelope published, if any. -/
def serverOnMessage (st : ServerState) (reg : Registry) (freshId : String)
    (now : Nat) (raw : Option CommandPayload) :
    ServerState × Option ResultEnvelope :=
  match raw with
  | none => (st, none)
  | some payload => (st, some (executeCommand reg freshId now payload))

/-- A result-topic payload as the client parses it: every field optional. -/
structure ResultMsg where
  request_id : Option String
  status : Option String
  result : Option Val
  error : Option String
deriving DecidableEq, Repr

/-- Serialising a published Result Envelope and parsing it back on the
client side. -/
def msgOfEnvelope (e : ResultEnvelope) : ResultMsg :=
  { request_id := some e.request_id, status := some e.status,
    result := e.result, error := e.error }

/-- The `pending_requests` dict: the Correlation Table, mapping an in-flight
`request_id` to the contents of its result queue. -/
abbrev PendingTable := Dict (List ResultMsg)

/-- The result-topic branch of `MQTTOrchestratorClient._on_message`
(mqtt_wrapper.py lines 321-325): look up `request_id` in `pending_requests`
and `put` the payload when an entry exists; otherwise the message is
dropped. -/
def clientOnResult (pending : PendingTable) (m : ResultMsg) : PendingTable :=
  match m.request_id with
  | none => pending
  | some rid =>
    match dictGet pending rid with
    | some q => dictInsert pending rid (q ++ [m])
    | none => pending

structure ClientState where
  connected : Bool
  pending : PendingTable

/-- What one call of `execute_task` does for the caller: return the result
value, raise `RuntimeError`, or raise `TimeoutError`. -/
inductive Outcome : Type where
  | success : Val → Outcome
  | runtimeError : String → Outcome
  | timedOut : String → Outcome
deriving DecidableEq, Repr

/-- Model of `params = parameters or {}; params.update(kwargs)` (mqtt_wrapper.py
lines 387-388). -/
def mergeParams (parameters : Option (Dict Val)) (kwargs : Dict Val) :
    Dict Val :=
  dictUpdate (parameters.getD []) kwargs

/-- The Command Envelope `execute_task` publishes (mqtt_wrapper.py
lines 391-397). -/
def clientCommand (freshId task_name : String) (params : Dict Val)
    (now : Nat) : CommandPayload :=
  { request_id := some freshId, task := some task_name,
    parameters := some params, timestamp := some now }

/-- Model of `cmd_timeout = timeout or self.timeout` (line 409): Python `or`, so both
`None` and `0` fall back to the client default. -/
def cmdTimeout (timeout : Option Nat) (defaultTimeout : Nat) : Nat :=
  match timeout with
  | none => defaultTimeout
  | some t => if t = 0 then defaultTimeout else t

/-- The message of the `TimeoutError` of line 420. -/
def timeoutMsg (task_name : String) (t : Nat) : String :=
  "Task " ++ pyQuote task_name ++ " timed out after " ++ toString t
    ++ " seconds"

def isMatch (rid : String) (m : ResultMsg) : Bool :=
  m.request_id == some rid

/-- Model of `result_queue.get(timeout=cmd_timeout)` (line 411): while the entry is
pending, the receive path enqueues exactly the arriving messages whose
`request_id` matches, so the caller dequeues the first such arrival, or
times out when there is none. -/
def waitResult (rid : String) (arrivals : List ResultMsg) :
    Option ResultMsg :=
  arrivals.find? (isMatch rid)

/-- Lines 413-420: a dequeued result with `status == "success"` yields
`result.get(\x27result\x27)` (so `None` when the field is absent); any other
dequeued result raises `RuntimeError`; `Empty` raises `TimeoutError`. -/
def resultOutcome (task_name : String) (t : Nat) :
    Option ResultMsg → Outcome
  | some m =>
    if m.status == some "success" then .success (m.result.getD .vNone)
    else .runtimeError ("Task failed: " ++ m.error.getD "Unknown error")
  | none => .timedOut (timeoutMsg task_name t)

/-- The state-changing steps of `execute_task`, in source order. -/
inductive ClientEvent : Type where
  | insertEntry : String → ClientEvent
  | publishCmd : CommandPayload → ClientEvent
  | removeEntry : String → ClientEvent
deriving DecidableEq, Repr

/-- Model of `self.pending_requests[request_id] = result_queue` (line 401). -/
def pendingAfterInsert (pending : PendingTable) (rid : String) :
    PendingTable :=
  dictInsert pending rid []

structure RunResult where
  outcome : Outcome
  finalPending : PendingTable
  published : CommandPayload
  events : List ClientEvent

/-- One call of `MQTTOrchestratorClient.execute_task` past the connectivity
guard (mqtt_wrapper.py lines 386-424), big-step over a delivery schedule:
`arrivals` is the sequence of result-topic messages handed to `_on_message`
between the insertion of the Correlation Entry (line 401) and the `finally`
cleanup (line 424); `freshId` is the `str(uuid.uuid4())` of line 391 and
`now` the `time.time()` of line 396.  The `events` field records the order
of the state-changing steps in the source: insert the entry (line 401),
publish the command (line 405), pop the entry (line 424). -/
def executeTaskRun (st : ClientState) (task_name : String)
    (parameters : Option (Dict Val)) (kwargs : Dict Val)
    (timeout : Option Nat) (defaultTimeout : Nat)
    (freshId : String) (now : Nat) (arrivals : List ResultMsg) : RunResult :=
  let params := mergeParams parameters kwargs
  let command := clientCommand freshId task_name params now
  let pending1 := pendingAfterInsert st.pending freshId
  let t := cmdTimeout timeout defaultTimeout
  let outcome := resultOutcome task_name t (waitResult freshId arrivals)
  let afterDeliveries := arrivals.foldl clientOnResult pending1
  { outcome := outcome,
    finalPending := dictErase afterDeliveries freshId,
    published := command,
    events := [.insertEntry freshId, .publishCmd command,
               .removeEntry freshId] }

/-- Model of `execute_task` including the connectivity guard of lines 383-384. -/
def executeTask (st : ClientState) (task_name : String)
    (parameters : Option (Dict Val)) (kwargs : Dict Val)
    (timeout : Option Nat) (defaultTimeout : Nat)
    (freshId : String) (now : Nat) (arrivals : List ResultMsg) :
    Except String RunResult :=
  if st.connected then
    .ok (executeTaskRun st task_name parameters kwargs timeout
          defaultTimeout freshId now arrivals)
  else
    .error "Not connected to MQTT broker"

/-! Concrete instances used to exercise the definitions. -/

/-- The `add(a: int, b: int) -> int` task of the end-to-end scenario. -/
def addFunc : Dict Val → Except String Val := fun args =>
  match dictGet args "a", dictGet args "b" with
  | some (.vInt a), some (.vInt b) => .ok (.vInt (a + b))
  | _, _ => .error "unsupported operand type(s) for +"

def tiAdd : TaskInfo :=
  { func := addFunc,
    sig := [{ name := "a", ann := some .aInt, default := none },
            { name := "b", ann := some .aInt, default := none }],
    name := "add", doc := "" }

def regAdd : Registry := [("add", tiAdd)]

/-- A task that raises `ValueError("boom")` whatever its argument. -/
def tiBoom : TaskInfo :=
  { func := fun _ => .error "boom", sig := [], name := "boom", doc := "" }

def regBoom : Registry := [("boom", tiBoom)]

/-- A one-parameter identity task whose parameter is annotated `int`. -/
def tiIden : TaskInfo :=
  { func := fun args => .ok ((dictGet args "a").getD .vNone),
    sig := [{ name := "a", ann := some .aInt, default := none }],
    name := "iden", doc := "" }

def regTyped : Registry := [("iden", tiIden)]

/-- A command whose `a` argument is a string although `a` is annotated
`int`: a type mismatch in the sense of `annMatches`. -/
def cmdTyped : CommandPayload :=
  { request_id := some "r1", task := some "iden",
    parameters := some [("a", .vStr "x")], timestamp := some 0 }

def tiAddOne : TaskInfo :=
  { func := fun _ => .ok .vNone, sig := [], name := "add", doc := "first" }

def tiAddTwo : TaskInfo :=
  { func := fun _ => .ok .vNone, sig := [], name := "add", doc := "second" }

def stConn : ClientState := { connected := true, pending := [] }

def srvSt : ServerState := { connected := true, running := true }

/-- A success result for request id `"r"`. -/
def msgR : ResultMsg :=
  { request_id := some "r", status := some "success",
    result := some (.vInt 1), error := none }

/-- A late duplicate of `msgR`. -/
def msgRdup : ResultMsg :=
  { request_id := some "r", status := some "error",
    result := none, error := some "late" }

/-- A result whose request id matches no Correlation Entry. -/
def msgStray : ResultMsg :=
  { request_id := some "zz", status := some "success",
    result := some (.vInt 7), error := none }

/-- A command that omits `request_id` and names no task. -/
def cmdNoRid : CommandPayload :=
  { request_id := none, task := none, parameters := none, timestamp := none }

/-- A command that omits `request_id` but runs `add` successfully. -/
def cmdNoRidAdd : CommandPayload :=
  { request_id := none, task := some "add",
    parameters := some [("a", .vInt 2), ("b", .vInt 3)], timestamp := none }

/-- A command that runs the failing task `boom`. -/
def cmdBoom : CommandPayload :=
  { request_id := some "r9", task := some "boom", parameters := some [],
    timestamp := none }

def pName : Param :=
  { name := "name", ann := some .aStr, default := none }

def pGreeting : Param :=
  { name := "greeting", ann := some .aStr, default := some (.vStr "hello") }

/-- A task with one required and one defaulted parameter. -/
def tiGreet : TaskInfo :=
  { func := fun args => .ok ((dictGet args "name").getD .vNone),
    sig := [pName, pGreeting], name := "greet", doc := "" }

def regGreet : Registry := [("greet", tiGreet)]

/-- A `greet` command supplying only the required parameter. -/
def cmdGreetName : CommandPayload :=
  { request_id := some "r5", task := some "greet",
    parameters := some [("name", .vStr "ada")], timestamp := none }

/-- A `greet` command omitting the required parameter. -/
def cmdGreetEmpty : CommandPayload :=
  { request_id := some "r6", task := some "greet", parameters := some [],
    timestamp := none }

/-! Helper lemmas about the dict model. -/

theorem dictGet_dictInsert_self {α : Type} (d : Dict α) (k : String) (v : α) :
    dictGet (dictInsert d k v) k = some v := by
  induction d with
  | nil => simp [dictInsert, dictGet]
  | cons kv rest ih =>
    obtain ⟨k0, v0⟩ := kv
    by_cases h : k0 = k
    · simp [dictInsert, dictGet, h]
    · simp [dictInsert, dictGet, h, ih]

theorem dictGet_dictInsert_ne {α : Type} (d : Dict α) (k k0 : String) (v : α)
    (h : k0 ≠ k) : dictGet (dictInsert d k v) k0 = dictGet d k0 := by
  induction d with
  | nil =>
    simp [dictInsert, dictGet]
    intro he
    exact absurd he.symm h
  | cons kv rest ih =>
    obtain ⟨k1, v1⟩ := kv
    by_cases h1 : k1 = k
    · have hne : k ≠ k0 := fun he => h he.symm
      simp [dictInsert, dictGet, h1, hne]
    · simp [dictInsert, dictGet, h1, ih]

theorem dictGet_dictErase_self {α : Type} (d : Dict α) (k : String) :
    dictGet (dictErase d k) k = none := by
  induction d with
  | nil => rfl
  | cons kv rest ih =>
    obtain ⟨k0, v0⟩ := kv
    by_cases h : k0 = k
    · simpa [dictErase, List.filter_cons, h] using ih
    · simpa [dictErase, List.filter_cons, h, dictGet] using ih

theorem dictGet_dictUpdate_not_mem {α : Type} (u d : Dict α) (k : String)
    (h : dictGet u k = none) : dictGet (dictUpdate d u) k = dictGet d k := by
  induction u generalizing d with
  | nil => rfl
  | cons kv rest ih =>
    obtain ⟨k0, v0⟩ := kv
    by_cases h0 : k0 = k
    · simp [dictGet, h0] at h
    · simp only [dictGet, if_neg h0] at h
      simpa [dictUpdate, List.foldl_cons, dictGet] using
        (dictGet_dictInsert_ne d k0 k v0 (fun he => h0 he.symm) ▸
          ih (dictInsert d k0 v0) h)

theorem mem_dictKeys_of_dictGet {α : Type} (d : Dict α) (k : String) (w : α)
    (h : dictGet d k = some w) : k ∈ dictKeys d := by
  induction d with
  | nil => simp [dictGet] at h
  | cons kv rest ih =>
    obtain ⟨k0, v0⟩ := kv
    by_cases h0 : k0 = k
    · simp [dictKeys, h0]
    · simp only [dictGet, if_neg h0] at h
      simp only [dictKeys, List.map_cons, List.mem_cons]
      right
      simpa [dictKeys] using ih h

theorem dictGet_dictUpdate_mem {α : Type} (u d : Dict α) (k : String) (v : α)
    (hnd : (dictKeys u).Nodup) (h : dictGet u k = some v) :
    dictGet (dictUpdate d u) k = some v := by
  induction u generalizing d with
  | nil => simp [dictGet] at h
  | cons kv rest ih =>
    obtain ⟨k0, v0⟩ := kv
    simp only [dictKeys, List.map_cons, List.nodup_cons] at hnd
    by_cases h0 : k0 = k
    · subst h0
      simp only [dictGet, if_pos rfl] at h
      cases h
      have hrest : dictGet rest k0 = none := by
        cases hg : dictGet rest k0 with
        | none => rfl
        | some w =>
          exact absurd (by simpa [dictKeys] using
            mem_dictKeys_of_dictGet rest k0 w hg) hnd.1
      show dictGet (dictUpdate (dictInsert d k0 v) rest) k0 = some v
      rw [dictGet_dictUpdate_not_mem rest (dictInsert d k0 v) k0 hrest,
        dictGet_dictInsert_self]
    · simp only [dictGet, if_neg h0] at h
      exact ih (dictInsert d k0 v0) (by simpa [dictKeys] using hnd.2) h

theorem clientOnResult_drop (pending : PendingTable) (m : ResultMsg)
    (h : ∀ rid, m.request_id = some rid → dictGet pending rid = none) :
    clientOnResult pending m = pending := by
  unfold clientOnResult
  cases hm : m.request_id with
  | none => rfl
  | some rid => simp [h rid hm]

theorem find?_append_of_isSome {α : Type} (l₁ l₂ : List α) (p : α → Bool)
    (h : (l₁.find? p).isSome) : (l₁ ++ l₂).find? p = l₁.find? p := by
  induction l₁ with
  | nil => simp [List.find?] at h
  | cons a l ih =>
    by_cases hpa : p a
    · simp [List.find?_cons_of_pos _ hpa]
    · rw [List.find?_cons_of_neg _ hpa] at h
      simp [List.find?_cons_of_neg _ hpa, ih h]

/-! Helper lemmas about signature binding. -/

theorem bindOne_ok_key (args : Dict Val) (q : Param) (kv : String × Val)
    (h : bindOne args q = .ok kv) : kv.1 = q.name := by
  unfold bindOne at h
  split at h
  · cases h
    rfl
  · split at h
    · cases h
      rfl
    · cases h

theorem bindAll_cons_ok (args : Dict Val) (q0 : Param) (rest : List Param)
    (bound : Dict Val) (h : bindAll args (q0 :: rest) = .ok bound) :
    ∃ kv kvs, bindOne args q0 = .ok kv ∧ bindAll args rest = .ok kvs ∧
      bound = kv :: kvs := by
  unfold bindAll at h
  split at h
  · cases h
  next kv hkv =>
    split at h
    · cases h
    next kvs hkvs =>
      cases h
      exact ⟨kv, kvs, hkv, hkvs, rfl⟩

theorem bindAll_ok_default (args : Dict Val) (sig : List Param)
    (bound : Dict Val) (q : Param) (d : Val)
    (hnd : (sig.map Param.name).Nodup)
    (hok : bindAll args sig = .ok bound) (hq : q ∈ sig)
    (hmiss : dictGet args q.name = none) (hdef : q.default = some d) :
    dictGet bound q.name = some d := by
  induction sig generalizing bound with
  | nil => cases hq
  | cons q0 rest ih =>
    obtain ⟨kv, kvs, hkv, hkvs, rfl⟩ := bindAll_cons_ok args q0 rest bound hok
    simp only [List.map_cons, List.nodup_cons] at hnd
    rcases List.mem_cons.mp hq with rfl | hmem
    · have hone : bindOne args q = .ok (q.name, d) := by
        simp [bindOne, hmiss, hdef]
      rw [hone] at hkv
      cases hkv
      simp [dictGet]
    · have hkey : kv.1 = q0.name := bindOne_ok_key args q0 kv hkv
      have hne : q0.name ≠ q.name := by
        intro he
        exact hnd.1 (he ▸ List.mem_map_of_mem Param.name hmem)
      have hskip : dictGet (kv :: kvs) q.name = dictGet kvs q.name := by
        obtain ⟨kk, vv⟩ := kv
        simp only at hkey
        simp [dictGet, hkey, hne]
      rw [hskip]
      exact ih kvs hnd.2 hkvs hmem

theorem bindAll_missing (args : Dict Val) (sig : List Param) (q : Param)
    (hq : q ∈ sig) (hdef : q.default = none)
    (hmiss : dictGet args q.name = none) :
    ∃ e, bindAll args sig = .error e := by
  induction sig with
  | nil => cases hq
  | cons q0 rest ih =>
    rcases List.mem_cons.mp hq with rfl | hmem
    · exact ⟨"missing a required argument: \x27" ++ q.name ++ "\x27",
        by simp [bindAll, bindOne, hmiss, hdef]⟩
    · obtain ⟨e, he⟩ := ih hmem
      cases hb : bindOne args q0 with
      | error e0 => exact ⟨e0, by simp [bindAll, hb]⟩
      | ok kv => exact ⟨e, by simp [bindAll, hb, he]⟩

theorem bindApplyDefaults_ok_bindAll (sig : List Param) (args : Dict Val)
    (bound : Dict Val) (h : bindApplyDefaults sig args = .ok bound) :
    bindAll args sig = .ok bound := by
  unfold bindApplyDefaults at h
  split at h
  · cases h
  next b hb =>
    split at h
    · cases h
    · cases h
      exact hb

theorem bindApplyDefaults_missing (sig : List Param) (args : Dict Val)
    (q : Param) (hq : q ∈ sig) (hdef : q.default = none)
    (hmiss : dictGet args q.name = none) :
    ∃ e, bindApplyDefaults sig args = .error e := by
  obtain ⟨e, he⟩ := bindAll_missing args sig q hq hdef hmiss
  exact ⟨e, by simp [bindApplyDefaults, he]⟩

theorem bindApplyDefaults_unexpected (sig : List Param) (args : Dict Val)
    (kv : String × Val) (hkv : kv ∈ args)
    (hno : (sig.find? (fun q => q.name == kv.1)).isNone) :
    ∃ e, bindApplyDefaults sig args = .error e := by
  cases hb : bindAll args sig with
  | error e => exact ⟨e, by simp [bindApplyDefaults, hb]⟩
  | ok bound =>
    have hsome :
        (args.find? (fun kv2 =>
          (sig.find? (fun q => q.name == kv2.1)).isNone)).isSome := by
      rw [List.find?_isSome]
      exact ⟨kv, hkv, hno⟩
    obtain ⟨kv2, hkv2⟩ := Option.isSome_iff_exists.mp hsome
    exact ⟨"got an unexpected keyword argument \x27" ++ kv2.1 ++ "\x27",
      by simp [bindApplyDefaults, hb, hkv2]⟩

/-! Helper lemmas about the executor. -/

theorem executeCommandBody_success (reg : Registry) (freshId : String)
    (now : Nat) (payload : CommandPayload) (task_name : String)
    (ti : TaskInfo) (bound : Dict Val) (v : Val)
    (htask : payload.task = some task_name) (hname : task_name ≠ "")
    (hreg : dictGet reg task_name = some ti)
    (hbind : bindApplyDefaults ti.sig (payload.parameters.getD []) = .ok bound)
    (hfun : ti.func bound = .ok v) :
    executeCommandBody reg freshId now payload =
      .ok { request_id := payload.request_id.getD freshId, task := task_name,
            status := "success", result := some v, error := none,
            timestamp := now } := by
  simp [executeCommandBody, htask, taskFalsy, hname, hreg, hbind, hfun]

theorem executeCommandBody_notfound (reg : Registry) (freshId : String)
    (now : Nat) (payload : CommandPayload) (task_name : String)
    (htask : payload.task = some task_name) (hname : task_name ≠ "")
    (hmiss : dictGet reg task_name = none) :
    executeCommandBody reg freshId now payload =
      .error (notFoundMsg task_name reg) := by
  simp [executeCommandBody, htask, taskFalsy, hname, hmiss]

theorem executeCommandBody_bindError (reg : Registry) (freshId : String)
    (now : Nat) (payload : CommandPayload) (task_name : String)
    (ti : TaskInfo) (e : String)
    (htask : payload.task = some task_name) (hname : task_name ≠ "")
    (hreg : dictGet reg task_name = some ti)
    (hbind : bindApplyDefaults ti.sig (payload.parameters.getD []) = .error e) :
    executeCommandBody reg freshId now payload = .error e := by
  simp [executeCommandBody, htask, taskFalsy, hname, hreg, hbind]

theorem executeCommandBody_funcError (reg : Registry) (freshId : String)
    (now : Nat) (payload : CommandPayload) (task_name : String)
    (ti : TaskInfo) (bound : Dict Val) (e : String)
    (htask : payload.task = some task_name) (hname : task_name ≠ "")
    (hreg : dictGet reg task_name = some ti)
    (hbind : bindApplyDefaults ti.sig (payload.parameters.getD []) = .ok bound)
    (hfun : ti.func bound = .error e) :
    executeCommandBody reg freshId now payload = .error e := by
  simp [executeCommandBody, htask, taskFalsy, hname, hreg, hbind, hfun]

theorem executeCommandBody_ok_request_id (reg : Registry) (freshId : String)
    (now : Nat) (payload : CommandPayload) (env : ResultEnvelope)
    (h : executeCommandBody reg freshId now payload = .ok env) :
    env.request_id = payload.request_id.getD freshId := by
  simp only [executeCommandBody] at h
  split at h
  · cases h
  · split at h
    · cases h
    · split at h
      · cases h
      · split at h
        · cases h
        · cases h
          rfl

theorem executeCommand_of_ok (reg : Registry) (freshId : String) (now : Nat)
    (payload : CommandPayload) (env : ResultEnvelope)
    (h : executeCommandBody reg freshId now payload = .ok env) :
    executeCommand reg freshId now payload = env := by
  simp [executeCommand, h]

theorem executeCommand_of_error (reg : Registry) (freshId : String)
    (now : Nat) (payload : CommandPayload) (e : String)
    (h : executeCommandBody reg freshId now payload = .error e) :
    executeCommand reg freshId now payload =
      { request_id := payload.request_id.getD "unknown",
        task := payload.task.getD "unknown", status := "error",
        result := none, error := some e, timestamp := now } := by
  simp [executeCommand, h]

/-! The claims. -/

/-- C1: for every registered task and every parameter mapping that binds
successfully against its signature, a round trip through the protocol — the
client publishing the Command Envelope in `execute_task`, the executor
dispatching it in `_execute_command`, and the result correlated back —
returns to the caller exactly the value the task function returns on the
bound arguments. -/
theorem roundtrip_execute_eq_direct_call
    (reg : Registry) (st : ClientState) (task_name : String) (ti : TaskInfo)
    (p bound : Dict Val) (v : Val) (timeout : Option Nat)
    (defaultTimeout : Nat) (freshC freshS : String) (nowC nowS : Nat)
    (hconn : st.connected = true) (hname : task_name ≠ "")
    (hreg : dictGet reg task_name = some ti)
    (hbind : bindApplyDefaults ti.sig p = .ok bound)
    (hfun : ti.func bound = .ok v) :
    executeTask st task_name (some p) [] timeout defaultTimeout freshC nowC
      [msgOfEnvelope (executeCommand reg freshS nowS
        (clientCommand freshC task_name (mergeParams (some p) []) nowC))]
      = .ok (executeTaskRun st task_name (some p) [] timeout defaultTimeout
          freshC nowC
          [msgOfEnvelope (executeCommand reg freshS nowS
            (clientCommand freshC task_name (mergeParams (some p) []) nowC))])
  ∧ (executeTaskRun st task_name (some p) [] timeout defaultTimeout freshC
      nowC
      [msgOfEnvelope (executeCommand reg freshS nowS
        (clientCommand freshC task_name (mergeParams (some p) []) nowC))]).outcome
      = .success v
  ∧ (executeTaskRun st task_name (some p) [] timeout defaultTimeout freshC
      nowC
      [msgOfEnvelope (executeCommand reg freshS nowS
        (clientCommand freshC task_name (mergeParams (some p) []) nowC))]).published
      = clientCommand freshC task_name (mergeParams (some p) []) nowC := by
  have hbody := executeCommandBody_success reg freshS nowS
    (clientCommand freshC task_name (mergeParams (some p) []) nowC)
    task_name ti bound v rfl hname hreg hbind hfun
  have henv := executeCommand_of_ok _ _ _ _ _ hbody
  refine ⟨by simp [executeTask, hconn], ?_, rfl⟩
  rw [henv]
  simp [executeTaskRun, waitResult, resultOutcome, isMatch, msgOfEnvelope,
    clientCommand]

/-- C1 witness: the end-to-end scenario, `add` called with `a = 2` and
`b = 3` returning `5`. -/
theorem roundtrip_execute_eq_direct_call_witness :
    (executeTaskRun stConn "add" (some [("a", .vInt 2), ("b", .vInt 3)]) []
      none 30 "req-1" 0
      [msgOfEnvelope (executeCommand regAdd "srv-1" 1
        (clientCommand "req-1" "add"
          (mergeParams (some [("a", .vInt 2), ("b", .vInt 3)]) []) 0))]).outcome
      = .success (.vInt 5) :=
  (roundtrip_execute_eq_direct_call regAdd stConn "add" tiAdd
    [("a", .vInt 2), ("b", .vInt 3)] [("a", .vInt 2), ("b", .vInt 3)]
    (.vInt 5) none 30 "req-1" "srv-1" 0 1 rfl (by decide) rfl rfl rfl).2.1

/-- C2: the outcome of `execute_task` is decided by the first matching
delivery — a later duplicate for the same request id never causes a second
fulfillment — and a Result Envelope whose request id is absent from the
Correlation Table is dropped by the receive path with the table returned
unchanged, fulfilling no other request. -/
theorem result_fulfills_at_most_once_and_stray_dropped :
    (∀ (pending : PendingTable) (m : ResultMsg),
      (∀ rid, m.request_id = some rid → dictGet pending rid = none) →
      clientOnResult pending m = pending)
  ∧ (∀ (st : ClientState) (task_name : String)
      (parameters : Option (Dict Val)) (kwargs : Dict Val)
      (timeout : Option Nat) (defaultTimeout : Nat) (freshId : String)
      (now : Nat) (arrivals post : List ResultMsg),
      (waitResult freshId arrivals).isSome →
      (executeTaskRun st task_name parameters kwargs timeout defaultTimeout
        freshId now (arrivals ++ post)).outcome
        = (executeTaskRun st task_name parameters kwargs timeout
            defaultTimeout freshId now arrivals).outcome) := by
  constructor
  · exact fun pending m h => clientOnResult_drop pending m h
  · intro st task_name parameters kwargs timeout defaultTimeout freshId now
      arrivals post h
    show resultOutcome task_name (cmdTimeout timeout defaultTimeout)
        (waitResult freshId (arrivals ++ post))
      = resultOutcome task_name (cmdTimeout timeout defaultTimeout)
        (waitResult freshId arrivals)
    unfold waitResult at h ⊢
    rw [find?_append_of_isSome arrivals post (isMatch freshId) h]

/-- C2 witness: a stray result is dropped with the table unchanged, and a
duplicate delivered after the fulfilling result leaves the outcome as is. -/
theorem result_fulfills_at_most_once_and_stray_dropped_witness :
    clientOnResult [("r", [])] msgStray = [("r", [])]
  ∧ (executeTaskRun stConn "add" none [] none 30 "r" 0
      ([msgR] ++ [msgRdup])).outcome
      = (executeTaskRun stConn "add" none [] none 30 "r" 0 [msgR]).outcome :=
  ⟨result_fulfills_at_most_once_and_stray_dropped.1 [("r", [])] msgStray
     (fun rid h => by cases h; rfl),
   result_fulfills_at_most_once_and_stray_dropped.2 stConn "add" none []
     none 30 "r" 0 [msgR] [msgRdup] (by decide)⟩

/-- C3: on a connected client every `execute_task` call terminates in
exactly one of three outcomes — the result value when the fulfilling
envelope has `status=success`, `RuntimeError` carrying the remote failure
message otherwise, and `TimeoutError` when no fulfilling envelope arrives —
and in all three cases the Correlation Entry is gone from
`pending_requests` when the call completes. -/
theorem executeTask_trichotomy_removes_entry
    (st : ClientState) (task_name : String) (parameters : Option (Dict Val))
    (kwargs : Dict Val) (timeout : Option Nat) (defaultTimeout : Nat)
    (freshId : String) (now : Nat) (arrivals : List ResultMsg)
    (hconn : st.connected = true) :
    executeTask st task_name parameters kwargs timeout defaultTimeout
      freshId now arrivals
      = .ok (executeTaskRun st task_name parameters kwargs timeout
          defaultTimeout freshId now arrivals)
  ∧ (match waitResult freshId arrivals with
     | some m =>
       if m.status == some "success" then
         (executeTaskRun st task_name parameters kwargs timeout
           defaultTimeout freshId now arrivals).outcome
           = .success (m.result.getD .vNone)
       else
         (executeTaskRun st task_name parameters kwargs timeout
           defaultTimeout freshId now arrivals).outcome
           = .runtimeError ("Task failed: " ++ m.error.getD "Unknown error")
     | none =>
       (executeTaskRun st task_name parameters kwargs timeout defaultTimeout
         freshId now arrivals).outcome
         = .timedOut (timeoutMsg task_name
             (cmdTimeout timeout defaultTimeout)))
  ∧ dictGet (executeTaskRun st task_name parameters kwargs timeout
      defaultTimeout freshId now arrivals).finalPending freshId = none := by
  refine ⟨by simp [executeTask, hconn], ?_, dictGet_dictErase_self _ freshId⟩
  have houtcome : (executeTaskRun st task_name parameters kwargs timeout
      defaultTimeout freshId now arrivals).outcome
      = resultOutcome task_name (cmdTimeout timeout defaultTimeout)
        (waitResult freshId arrivals) := rfl
  simp only [houtcome]
  cases hw : waitResult freshId arrivals with
  | none => simp [resultOutcome]
  | some m =>
    by_cases hs : m.status == some "success"
    · simp [resultOutcome, hs]
    · simp [resultOutcome, hs]

/-- C3 witness: a success delivery for request `r` returns, and the entry
for `r` is absent from the table afterwards. -/
theorem executeTask_trichotomy_removes_entry_witness :
    executeTask stConn "add" none [] none 30 "r" 0 [msgR]
      = .ok (executeTaskRun stConn "add" none [] none 30 "r" 0 [msgR])
  ∧ dictGet (executeTaskRun stConn "add" none [] none 30 "r" 0
      [msgR]).finalPending "r" = none :=
  ⟨(executeTask_trichotomy_removes_entry stConn "add" none [] none 30 "r" 0
      [msgR] rfl).1,
   (executeTask_trichotomy_removes_entry stConn "add" none [] none 30 "r" 0
      [msgR] rfl).2.2⟩

/-- C4: in every execution of `execute_task` the Correlation Entry is
inserted into `pending_requests` strictly before the Command Envelope is
published, so a result delivered right after the publish finds the entry
and is enqueued for the caller. -/
theorem entry_inserted_before_publish
    (st : ClientState) (task_name : String) (parameters : Option (Dict Val))
    (kwargs : Dict Val) (timeout : Option Nat) (defaultTimeout : Nat)
    (freshId : String) (now : Nat) (arrivals : List ResultMsg)
    (m : ResultMsg) (hm : m.request_id = some freshId) :
    (∃ i j, i < j
      ∧ (executeTaskRun st task_name parameters kwargs timeout
          defaultTimeout freshId now arrivals).events.get? i
          = some (.insertEntry freshId)
      ∧ (executeTaskRun st task_name parameters kwargs timeout
          defaultTimeout freshId now arrivals).events.get? j
          = some (.publishCmd (executeTaskRun st task_name parameters kwargs
              timeout defaultTimeout freshId now arrivals).published))
  ∧ dictGet (clientOnResult (pendingAfterInsert st.pending freshId) m)
      freshId = some [m] := by
  constructor
  · exact ⟨0, 1, Nat.zero_lt_one, rfl, rfl⟩
  · unfold clientOnResult
    rw [hm]
    simp [pendingAfterInsert, dictGet_dictInsert_self]

/-- C4 witness: with an empty table, a matching result arriving right after
the insert is enqueued under the fresh request id. -/
theorem entry_inserted_before_publish_witness :
    dictGet (clientOnResult (pendingAfterInsert stConn.pending "r") msgR)
      "r" = some [msgR] :=
  (entry_inserted_before_publish stConn "add" none [] none 30 "r" 0 []
    msgR rfl).2

/-- C5: a Command Envelope naming an unregistered task makes the executor
publish a `status=error` Result Envelope whose message is the
task-not-found text listing the available task names, and the caller that
published the command fails with `RuntimeError` carrying that message, not
with a timeout. -/
theorem unknown_task_error_names_task
    (reg : Registry) (st : ClientState) (task_name : String)
    (parameters : Option (Dict Val)) (timeout : Option Nat)
    (defaultTimeout : Nat) (freshC freshS : String) (nowC nowS : Nat)
    (hconn : st.connected = true) (hname : task_name ≠ "")
    (hmiss : dictGet reg task_name = none) :
    (executeCommand reg freshS nowS
      (clientCommand freshC task_name (mergeParams parameters []) nowC)).status
      = "error"
  ∧ (executeCommand reg freshS nowS
      (clientCommand freshC task_name (mergeParams parameters []) nowC)).error
      = some (notFoundMsg task_name reg)
  ∧ executeTask st task_name parameters [] timeout defaultTimeout freshC
      nowC
      [msgOfEnvelope (executeCommand reg freshS nowS
        (clientCommand freshC task_name (mergeParams parameters []) nowC))]
      = .ok (executeTaskRun st task_name parameters [] timeout
          defaultTimeout freshC nowC
          [msgOfEnvelope (executeCommand reg freshS nowS
            (clientCommand freshC task_name (mergeParams parameters [])
              nowC))])
  ∧ (executeTaskRun st task_name parameters [] timeout defaultTimeout
      freshC nowC
      [msgOfEnvelope (executeCommand reg freshS nowS
        (clientCommand freshC task_name (mergeParams parameters [])
          nowC))]).outcome
      = .runtimeError ("Task failed: " ++ notFoundMsg task_name reg) := by
  have hbody := executeCommandBody_notfound reg freshS nowS
    (clientCommand freshC task_name (mergeParams parameters []) nowC)
    task_name rfl hname hmiss
  have henv := executeCommand_of_error _ _ _ _ _ hbody
  refine ⟨by rw [henv], by rw [henv], by simp [executeTask, hconn], ?_⟩
  rw [henv]
  simp [executeTaskRun, waitResult, resultOutcome, isMatch, msgOfEnvelope,
    clientCommand]

/-- C5 witness: calling the unregistered task `mul` against the registry
holding only `add`. -/
theorem unknown_task_error_names_task_witness :
    (executeCommand regAdd "srv-4" 0
      (clientCommand "req-2" "mul" (mergeParams none []) 0)).status
      = "error"
  ∧ (executeCommand regAdd "srv-4" 0
      (clientCommand "req-2" "mul" (mergeParams none []) 0)).error
      = some (notFoundMsg "mul" regAdd)
  ∧ (executeTaskRun stConn "mul" none [] none 30 "req-2" 0
      [msgOfEnvelope (executeCommand regAdd "srv-4" 0
        (clientCommand "req-2" "mul" (mergeParams none []) 0))]).outcome
      = .runtimeError ("Task failed: " ++ notFoundMsg "mul" regAdd) := by
  have h := unknown_task_error_names_task regAdd stConn "mul" none none 30
    "req-2" "srv-4" 0 0 rfl (by decide) rfl
  exact ⟨h.1, h.2.1, h.2.2.2⟩

/-- C6: the message handler of the device executor never propagates an
exception: a payload that is not valid JSON produces no crash and no
publication, every well-formed payload produces exactly one published
Result Envelope, and a task body that raises yields a `status=error`
envelope carrying the failure text — with the server state, and with it
the subscription, unchanged in every case. -/
theorem server_handler_never_propagates
    (st : ServerState) (reg : Registry) (freshId : String) (now : Nat)
    (payload : CommandPayload) (task_name : String) (ti : TaskInfo)
    (bound : Dict Val) (e : String)
    (htask : payload.task = some task_name) (hname : task_name ≠ "")
    (hreg : dictGet reg task_name = some ti)
    (hbind : bindApplyDefaults ti.sig (payload.parameters.getD []) = .ok bound)
    (hraise : ti.func bound = .error e) :
    serverOnMessage st reg freshId now none = (st, none)
  ∧ (∀ p : CommandPayload, ∃ env,
      serverOnMessage st reg freshId now (some p) = (st, some env))
  ∧ serverOnMessage st reg freshId now (some payload)
      = (st, some { request_id := payload.request_id.getD "unknown",
                    task := payload.task.getD "unknown", status := "error",
                    result := none, error := some e, timestamp := now }) := by
  refine ⟨rfl, fun p => ⟨executeCommand reg freshId now p, rfl⟩, ?_⟩
  have hbody := executeCommandBody_funcError reg freshId now payload
    task_name ti bound e htask hname hreg hbind hraise
  have henv := executeCommand_of_error _ _ _ _ _ hbody
  simp [serverOnMessage, henv]

/-- C6 witness: a malformed payload is dropped, and the raising task `boom`
is answered with a `status=error` envelope carrying `"boom"`. -/
theorem server_handler_never_propagates_witness :
    serverOnMessage srvSt regBoom "srv-5" 0 none = (srvSt, none)
  ∧ serverOnMessage srvSt regBoom "srv-5" 0 (some cmdBoom)
      = (srvSt, some { request_id := "r9", task := "boom",
                       status := "error", result := none,
                       error := some "boom", timestamp := 0 }) := by
  have h := server_handler_never_propagates srvSt regBoom "srv-5" 0 cmdBoom
    "boom" tiBoom [] "boom" rfl (by decide) rfl rfl rfl
  exact ⟨h.1, h.2.2⟩

/-- C7 counterexample: the argument `a` of `cmdTyped` mismatches the `int`
annotation of the registered task, yet the executor invokes the task
function and publishes `status=success` — not, as claimed, a
`status=error` envelope without invocation. -/
theorem type_mismatch_invokes_function_counterexample :
    annMatches Ann.aInt (Val.vStr "x") = false
  ∧ invokesFunc regTyped cmdTyped = true
  ∧ (executeCommand regTyped "srv-3" 0 cmdTyped).status = "success"
  ∧ (executeCommand regTyped "srv-3" 0 cmdTyped).result
      = some (.vStr "x") := by
  refine ⟨rfl, ?_, ?_, ?_⟩ <;> rfl

/-- C7 amended: the executor binds the supplied parameters against the
registered signature, applying declared defaults for omitted parameters,
and on a missing required parameter or an unexpected parameter it
publishes a `status=error` Result Envelope without invoking the task
function; declared type annotations are never checked. -/
theorem bind_applies_defaults_and_rejects_bad_arity
    (reg : Registry) (freshId : String) (now : Nat)
    (payload : CommandPayload) (task_name : String) (ti : TaskInfo)
    (htask : payload.task = some task_name) (hname : task_name ≠ "")
    (hreg : dictGet reg task_name = some ti)
    (hnd : (ti.sig.map Param.name).Nodup) :
    (∀ bound q d,
      bindApplyDefaults ti.sig (payload.parameters.getD []) = .ok bound →
      q ∈ ti.sig → dictGet (payload.parameters.getD []) q.name = none →
      q.default = some d → dictGet bound q.name = some d)
  ∧ (∀ q, q ∈ ti.sig → q.default = none →
      dictGet (payload.parameters.getD []) q.name = none →
      ∃ e, bindApplyDefaults ti.sig (payload.parameters.getD []) = .error e)
  ∧ (∀ kv, kv ∈ payload.parameters.getD [] →
      (ti.sig.find? (fun q => q.name == kv.1)).isNone →
      ∃ e, bindApplyDefaults ti.sig (payload.parameters.getD []) = .error e)
  ∧ (∀ e, bindApplyDefaults ti.sig (payload.parameters.getD []) = .error e →
      invokesFunc reg payload = false
      ∧ (executeCommand reg freshId now payload).status = "error"
      ∧ (executeCommand reg freshId now payload).error = some e) := by
  refine ⟨?_, ?_, ?_, ?_⟩
  · intro bound q d hok hq hmiss hdef
    exact bindAll_ok_default _ _ _ q d hnd
      (bindApplyDefaults_ok_bindAll _ _ _ hok) hq hmiss hdef
  · intro q hq hdef hmiss
    exact bindApplyDefaults_missing _ _ q hq hdef hmiss
  · intro kv hkv hno
    exact bindApplyDefaults_unexpected _ _ kv hkv hno
  · intro e he
    have hbody := executeCommandBody_bindError reg freshId now payload
      task_name ti e htask hname hreg he
    have henv := executeCommand_of_error _ _ _ _ _ hbody
    refine ⟨?_, by rw [henv], by rw [henv]⟩
    simp [invokesFunc, htask, taskFalsy, hname, hreg, he, Except.toOption]

/-- C7 amended witness: `greet` called with only `name` gets the default
`greeting`, while `greet` called with no arguments is rejected without the
function running. -/
theorem bind_applies_defaults_and_rejects_bad_arity_witness :
    dictGet [("name", Val.vStr "ada"), ("greeting", Val.vStr "hello")]
      "greeting" = some (.vStr "hello")
  ∧ invokesFunc regGreet cmdGreetEmpty = false
  ∧ (executeCommand regGreet "srv-6" 0 cmdGreetEmpty).status = "error" := by
  have h1 := bind_applies_defaults_and_rejects_bad_arity regGreet "srv-6" 0
    cmdGreetName "greet" tiGreet rfl (by decide) rfl (by decide)
  have h2 := bind_applies_defaults_and_rejects_bad_arity regGreet "srv-6" 0
    cmdGreetEmpty "greet" tiGreet rfl (by decide) rfl (by decide)
  have hb := h2.2.2.2 "missing a required argument: \x27name\x27" rfl
  exact ⟨h1.1 [("name", .vStr "ada"), ("greeting", .vStr "hello")]
      pGreeting (.vStr "hello") rfl (by decide) rfl rfl,
    hb.1, hb.2.1⟩

/-- C8 counterexample: registering a second task under the already
registered name `add` replaces the first entry instead of failing and
leaving it unchanged. -/
theorem duplicate_registration_overwrites_counterexample :
    (dictGet (mqttTaskRegister (mqttTaskRegister [] "add" tiAddOne) "add"
      tiAddTwo) "add").map TaskInfo.doc = some "second"
  ∧ (dictGet (mqttTaskRegister (mqttTaskRegister [] "add" tiAddOne) "add"
      tiAddTwo) "add").map TaskInfo.doc ≠ some "first" := by
  exact ⟨rfl, by decide⟩

/-- C8 amended: registering a task under an already registered name raises
no error and silently replaces the existing entry — last registration
wins — while entries under other names are untouched. -/
theorem duplicate_registration_last_wins
    (reg : Registry) (task_name other : String) (ti : TaskInfo)
    (hne : other ≠ task_name) :
    dictGet (mqttTaskRegister reg task_name ti) task_name = some ti
  ∧ dictGet (mqttTaskRegister reg task_name ti) other = dictGet reg other :=
  ⟨dictGet_dictInsert_self reg task_name ti,
   dictGet_dictInsert_ne reg task_name other ti hne⟩

/-- C8 amended witness: re-registering `add` over a one-entry registry. -/
theorem duplicate_registration_last_wins_witness :
    dictGet (mqttTaskRegister [("add", tiAddOne)] "add" tiAddTwo) "add"
      = some tiAddTwo
  ∧ dictGet (mqttTaskRegister [("add", tiAddOne)] "add" tiAddTwo) "mul"
      = dictGet [("add", tiAddOne)] "mul" :=
  duplicate_registration_last_wins [("add", tiAddOne)] "add" "mul" tiAddTwo
    (by decide)

/-- C9: `execute_task` merges the parameters dict and the keyword
arguments into the single mapping the published Command Envelope carries;
a key present in both gets the value from the keyword argument, and a key present
only in the parameters dict keeps its value. -/
theorem kwargs_supersede_parameters
    (st : ClientState) (task_name : String) (ps ks : Dict Val)
    (timeout : Option Nat) (defaultTimeout : Nat) (freshId : String)
    (now : Nat) (arrivals : List ResultMsg) (k : String) (v : Val)
    (hnd : (dictKeys ks).Nodup) (hk : dictGet ks k = some v) :
    (executeTaskRun st task_name (some ps) ks timeout defaultTimeout
      freshId now arrivals).published.parameters
      = some (mergeParams (some ps) ks)
  ∧ dictGet (mergeParams (some ps) ks) k = some v
  ∧ (∀ k2, dictGet ks k2 = none →
      dictGet (mergeParams (some ps) ks) k2 = dictGet ps k2) := by
  refine ⟨rfl, ?_, ?_⟩
  · exact dictGet_dictUpdate_mem ks ps k v hnd hk
  · intro k2 h2
    exact dictGet_dictUpdate_not_mem ks ps k2 h2

/-- C9 witness: the keyword argument `a = 2` supersedes the `a = 1` of the
parameters dict, and `c` keeps its value. -/
theorem kwargs_supersede_parameters_witness :
    (executeTaskRun stConn "paint"
      (some [("a", .vInt 1), ("c", .vInt 3)]) [("a", .vInt 2)] none 30
      "r7" 0 []).published.parameters
      = some (mergeParams (some [("a", .vInt 1), ("c", .vInt 3)])
          [("a", .vInt 2)])
  ∧ dictGet (mergeParams (some [("a", .vInt 1), ("c", .vInt 3)])
      [("a", .vInt 2)]) "a" = some (.vInt 2)
  ∧ dictGet (mergeParams (some [("a", .vInt 1), ("c", .vInt 3)])
      [("a", .vInt 2)]) "c" = dictGet [("a", .vInt 1), ("c", .vInt 3)] "c"
    := by
  have h := kwargs_supersede_parameters stConn "paint"
    [("a", .vInt 1), ("c", .vInt 3)] [("a", .vInt 2)] none 30 "r7" 0 []
    "a" (.vInt 2) (by decide) rfl
  exact ⟨h.1, h.2.1, h.2.2 "c" rfl⟩

/-- C10: a Command Envelope without `request_id` is still executed and is
always answered with a published Result Envelope, whose `request_id` is
the UUID freshly drawn by the executor when the task succeeds and the literal
`"unknown"` when it fails; either way a client whose Correlation Table
lacks that id drops the result, fulfilling nothing. -/
theorem missing_request_id_result_uncorrelatable
    (st : ServerState) (reg : Registry) (freshS : String) (now : Nat)
    (payload : CommandPayload) (pending : PendingTable)
    (hrid : payload.request_id = none)
    (hfresh : dictGet pending
      (executeCommand reg freshS now payload).request_id = none) :
    serverOnMessage st reg freshS now (some payload)
      = (st, some (executeCommand reg freshS now payload))
  ∧ (∀ env, executeCommandBody reg freshS now payload = .ok env →
      (executeCommand reg freshS now payload).request_id = freshS)
  ∧ (∀ e, executeCommandBody reg freshS now payload = .error e →
      (executeCommand reg freshS now payload).request_id = "unknown")
  ∧ clientOnResult pending
      (msgOfEnvelope (executeCommand reg freshS now payload)) = pending := by
  refine ⟨rfl, ?_, ?_, ?_⟩
  · intro env henv
    rw [executeCommand_of_ok _ _ _ _ _ henv]
    rw [executeCommandBody_ok_request_id _ _ _ _ _ henv, hrid]
    rfl
  · intro e he
    rw [executeCommand_of_error _ _ _ _ _ he, hrid]
    rfl
  · refine clientOnResult_drop pending _ (fun rid h => ?_)
    have h2 : (executeCommand reg freshS now payload).request_id = rid := by
      simpa [msgOfEnvelope] using h
    rw [← h2]
    exact hfresh

/-- C10 witness: `add` invoked by a command without `request_id` is
answered under the server-generated id `srv-2`, which a client that never
issued it drops. -/
theorem missing_request_id_result_uncorrelatable_witness :
    serverOnMessage srvSt regAdd "srv-2" 0 (some cmdNoRidAdd)
      = (srvSt, some (executeCommand regAdd "srv-2" 0 cmdNoRidAdd))
  ∧ (executeCommand regAdd "srv-2" 0 cmdNoRidAdd).request_id = "srv-2"
  ∧ clientOnResult [("client-req", [])]
      (msgOfEnvelope (executeCommand regAdd "srv-2" 0 cmdNoRidAdd))
      = [("client-req", [])] := by
  have h := missing_request_id_result_uncorrelatable srvSt regAdd "srv-2" 0
    cmdNoRidAdd [("client-req", [])] rfl rfl
  exact ⟨h.1,
    h.2.1 { request_id := "srv-2", task := "add", status := "success",
            result := some (.vInt 5), error := none, timestamp := 0 } rfl,
    h.2.2.2⟩

end AcLab
